import Mathlib

/-!
Verification of the wallet-connectivity and on-chain transaction
orchestration layer of the Xwawa lottery front end.

The development shallowly embeds the JavaScript source:

* big-number values (`web3.utils.toBN` over decimal strings) become `Nat`
  together with an explicit decimal-string encoding/decoding pair;
* the contract / provider environment (results of `call()`, `send()`,
  `request()`) is passed in explicitly as `Except`-valued fields;
* each stateful flow is a pure function from its environment to the trace
  of submitted requests plus its returned (or thrown) value.
-/

/-! ## Decimal strings (the `toBN` / `toString` layer) -/

/-- Character for a single decimal digit, as produced by `BN.toString()`. -/
def decDigitChar (d : Nat) : Char := Char.ofNat (48 + d)

/-- Numeric value of one decimal digit character. -/
def decDigit (c : Char) : Nat := c.toNat - 48

/-- Big-endian decimal rendering of a natural number, fuel-indexed. -/
def natToDecAux : Nat → Nat → List Char
  | 0, _ => []
  | fuel + 1, n =>
    if n < 10 then [decDigitChar n]
    else natToDecAux fuel (n / 10) ++ [decDigitChar (n % 10)]

/-- Decimal rendering of a natural number (`BN.toString()` / `.toString()`). -/
def natToDec (n : Nat) : List Char := natToDecAux (n + 1) n

/-- Parse a big-endian decimal digit string, as `web3.utils.toBN` does. -/
def decToNat (s : List Char) : Nat :=
  s.foldl (fun acc c => acc * 10 + decDigit c) 0

/-- Alias matching the source's `web3.utils.toBN` applied to a call result. -/
def toBN (s : List Char) : Nat := decToNat s

theorem decDigit_decDigitChar {d : Nat} (h : d < 10) :
    decDigit (decDigitChar d) = d := by
  interval_cases d <;> decide

theorem foldl_dec_append (A : List Char) (c : Char) :
    decToNat (A ++ [c]) = decToNat A * 10 + decDigit c := by
  simp [decToNat, List.foldl_append]

theorem decToNat_natToDecAux : ∀ (fuel n : Nat), n < fuel →
    decToNat (natToDecAux fuel n) = n := by
  intro fuel
  induction fuel with
  | zero => intro n h; omega
  | succ f ih =>
    intro n h
    by_cases h10 : n < 10
    · simp only [natToDecAux, if_pos h10, decToNat, List.foldl]
      simpa [decToNat] using decDigit_decDigitChar h10
    · have hdiv : n / 10 < n := Nat.div_lt_self (by omega) (by omega)
      have hfuel : n / 10 < f := by omega
      simp only [natToDecAux, if_neg h10]
      rw [foldl_dec_append, ih _ hfuel, decDigit_decDigitChar (Nat.mod_lt n (by omega))]
      omega

/-- Round trip: decoding the decimal rendering returns the number, so the
big-number layer is exact integer arithmetic with no loss. -/
theorem decToNat_natToDec (n : Nat) : decToNat (natToDec n) = n :=
  decToNat_natToDecAux (n + 1) n (Nat.lt_succ_self n)

/-! ## String search (the `String.includes` and regex-test layer) -/

/-- Does `needle` occur at the head of `hay`? -/
def listLeads : List Char → List Char → Bool
  | [], _ => true
  | _ :: _, [] => false
  | a :: as, b :: bs => a == b && listLeads as bs

/-- Does `needle` occur anywhere inside `hay`? -/
def listHas (needle : List Char) : List Char → Bool
  | [] => listLeads needle []
  | b :: bs => listLeads needle (b :: bs) || listHas needle bs

/-- JavaScript `s.includes(needle)` (case-sensitive substring search). -/
def strIncludes (s needle : String) : Bool := listHas needle.data s.data

/-- Case-insensitive substring search, the shape of a `/pat/i.test(s)` call
on an alternation of literal patterns. -/
def strContainsCI (s pat : String) : Bool :=
  listHas (pat.data.map Char.toLower) (s.data.map Char.toLower)

/-! ## Hexadecimal rendering (`targetId.toString(16)`) -/

/-- Character for one hexadecimal digit, lowercase as in JavaScript. -/
def hexDigitChar (d : Nat) : Char :=
  if d < 10 then Char.ofNat (48 + d) else Char.ofNat (87 + d)

/-- Big-endian hexadecimal rendering, fuel-indexed. -/
def natToHexAux : Nat → Nat → List Char
  | 0, _ => []
  | fuel + 1, n =>
    if n < 16 then [hexDigitChar n]
    else natToHexAux fuel (n / 16) ++ [hexDigitChar (n % 16)]

/-- JavaScript `n.toString(16)` for a natural number. -/
def natToHex (n : Nat) : String := ⟨natToHexAux (n + 1) n⟩

/-! ## Receipt event shapes and outcome parsing (`drawFromContract`) -/

/-- An error value thrown by a contract or provider call; only the
`message` field is inspected by the draw pipeline. -/
structure JsError where
  message : String
deriving Repr, DecidableEq

/-- Result of applying JavaScript `Number(...)` to a receipt field: either
an integer or `NaN`. -/
inductive NumVal
  | int (n : Int)
  | nan
deriving Repr, DecidableEq

/-- Shape of the `winningType` field: a scalar or an array. -/
inductive WtVal
  | scalar (v : NumVal)
  | arrayOf (xs : List NumVal)
deriving Repr, DecidableEq

/-- The `returnValues` / `args` object of a decoded event. `none` models a
missing (`undefined`/`null`) field; `idx1` models positional access `rv[1]`. -/
structure ReturnValues where
  prizeId : Option NumVal
  winningType : Option WtVal
  idx1 : Option NumVal
deriving Repr, DecidableEq

/-- An entry of the web3-style `tx.events` map. -/
structure EventObj where
  returnValues : Option ReturnValues
deriving Repr, DecidableEq

/-- An element of an ethers-style `tx.events` array. -/
structure ArrEvent where
  event : String
  args : Option ReturnValues
  returnValues : Option ReturnValues
deriving Repr, DecidableEq

/-- The possible shapes of `tx.events`: absent, a web3 name-keyed map
(restricted to the two keys the code reads), or an ethers-style array. -/
inductive EventsVal
  | nullEvents
  | eventMap (drawResult : Option EventObj) (draw : Option EventObj)
  | eventArr (events : List ArrEvent)
deriving Repr, DecidableEq

/-- Which decoding strategy produced the outcome (instrumentation of the
branch structure; `unresolved` when no branch assigned a value). -/
inductive ParsedFrom
  | primaryEvent
  | altEvent
  | arrayScan
  | unresolved
deriving Repr, DecidableEq

/-- JavaScript `Number(x)` where `x` may be `undefined` (giving `NaN`). -/
def numOfField : Option NumVal → NumVal
  | none => NumVal.nan
  | some v => v

/-- Value taken in the primary `DrawResult` branch:
`Number(rv.prizeId ?? rv[1])`. -/
def primaryValue (rv : ReturnValues) : NumVal :=
  match rv.prizeId with
  | some v => v
  | none => numOfField rv.idx1

/-- Value of `Array.isArray(wt) ? Number(wt[0]) : Number(wt)`. -/
def wtFirst : WtVal → NumVal
  | WtVal.scalar v => v
  | WtVal.arrayOf [] => NumVal.nan
  | WtVal.arrayOf (x :: _) => x

/-- JavaScript truthiness of a `winningType` value (`0` and `NaN` are
falsy; any array object is truthy). -/
def truthyWt : WtVal → Bool
  | WtVal.scalar (NumVal.int n) => n != 0
  | WtVal.scalar NumVal.nan => false
  | WtVal.arrayOf _ => true

/-- The guard `evts.X && evts.X.returnValues` on a map entry. -/
def mapEventRV : Option EventObj → Option ReturnValues
  | none => none
  | some o => o.returnValues

/-- First stage of outcome parsing: the web3 `events` map branches
(primary `DrawResult` event, then alternate `Draw` event). -/
def parseStage1 : EventsVal → Option NumVal × ParsedFrom
  | EventsVal.eventMap dr dw =>
    match mapEventRV dr with
    | some rv => (some (primaryValue rv), ParsedFrom.primaryEvent)
    | none =>
      match mapEventRV dw with
      | some rv =>
        match rv.prizeId with
        | some v => (some v, ParsedFrom.altEvent)
        | none =>
          match rv.winningType with
          | some wt => (some (wtFirst wt), ParsedFrom.altEvent)
          | none => (none, ParsedFrom.unresolved)
      | none => (none, ParsedFrom.unresolved)
  | _ => (none, ParsedFrom.unresolved)

/-- The `evts.find(e => e.event === 'DrawResult' || e.event === 'Draw')`
scan over an ethers-style event array. -/
def findDrawEvent : List ArrEvent → Option ArrEvent
  | [] => none
  | e :: rest =>
    if e.event == "DrawResult" || e.event == "Draw" then some e
    else findDrawEvent rest

/-- JavaScript `evt.args || evt.returnValues` (objects are truthy). -/
def effectiveArgs (e : ArrEvent) : Option ReturnValues :=
  match e.args with
  | some a => some a
  | none => e.returnValues

/-- Value extracted in the array-scan branch:
`Number(args.prizeId ?? (args.winningType ? (Array.isArray(wt) ? wt[0] : wt) : args[1]))`. -/
def arrArgsValue (args : ReturnValues) : NumVal :=
  match args.prizeId with
  | some v => v
  | none =>
    match args.winningType with
    | some wt => if truthyWt wt then wtFirst wt else numOfField args.idx1
    | none => numOfField args.idx1

/-- The guard `prizeId == null || Number.isNaN(prizeId)` before the
array-scan fallback. -/
def needsArrFallback : Option NumVal → Bool
  | none => true
  | some NumVal.nan => true
  | some (NumVal.int _) => false

/-- Full ordered outcome parse of `tx.events` in `drawFromContract`,
returning the extracted value (`none` = JavaScript `null`) and the branch
that produced it. -/
def parseDrawEvents (evts : EventsVal) : Option NumVal × ParsedFrom :=
  let s1 := parseStage1 evts
  match evts with
  | EventsVal.eventArr es =>
    if needsArrFallback s1.1 then
      match findDrawEvent es with
      | some e =>
        match effectiveArgs e with
        | some args => (some (arrArgsValue args), ParsedFrom.arrayScan)
        | none => s1
      | none => s1
    else s1
  | _ => s1

/-! ## The draw pipeline (`drawFromContract`) -/

/-- A transaction submitted by the pipeline. Amounts are carried as the
decimal strings actually sent (`totalCost.toString()`). -/
inductive TxAction
  | approve (amount : List Char)
  | drawWithTimes (times : Nat)
  | drawNoArgs
deriving Repr, DecidableEq

/-- Behaviour of the chain environment during one `drawFromContract`
invocation: the strings returned by the two `call()`s and the results of
the three possible `send()`s. -/
structure DrawEnv where
  drawCostRaw : List Char
  allowance : List Char
  approveResult : Except JsError Unit
  drawTimesResult : Except JsError EventsVal
  drawNoArgResult : Except JsError EventsVal

/-- Trace and returned (or thrown) value of one `drawFromContract` run. -/
structure DrawRun where
  trace : List TxAction
  result : Except JsError (Option NumVal × ParsedFrom)

/-- The total token amount the pipeline computes:
`web3.utils.toBN(drawCostRaw).mul(web3.utils.toBN(times))`. -/
def pipelineTotalCost (env : DrawEnv) (times : Nat) : Nat :=
  toBN env.drawCostRaw * times

/-- Draw-submission step: try `draw(times)`, and only on an
`invalid number of parameters` error retry once with `draw()`. -/
def submitDraw (env : DrawEnv) (times : Nat) :
    List TxAction × Except JsError (Option NumVal × ParsedFrom) :=
  match env.drawTimesResult with
  | Except.ok evts => ([TxAction.drawWithTimes times], Except.ok (parseDrawEvents evts))
  | Except.error e =>
    if strIncludes e.message "invalid number of parameters" then
      match env.drawNoArgResult with
      | Except.ok evts =>
        ([TxAction.drawWithTimes times, TxAction.drawNoArgs], Except.ok (parseDrawEvents evts))
      | Except.error e2 =>
        ([TxAction.drawWithTimes times, TxAction.drawNoArgs], Except.error e2)
    else ([TxAction.drawWithTimes times], Except.error e)

/-- The `drawFromContract(times)` pipeline: cost read, allowance check,
conditional exact-amount approve, draw submission, outcome parse. -/
def drawFromContract (env : DrawEnv) (times : Nat) : DrawRun :=
  let totalCost := pipelineTotalCost env times
  if toBN env.allowance < totalCost then
    match env.approveResult with
    | Except.error e => ⟨[TxAction.approve (natToDec totalCost)], Except.error e⟩
    | Except.ok _ =>
      let s := submitDraw env times
      ⟨TxAction.approve (natToDec totalCost) :: s.1, s.2⟩
  else
    let s := submitDraw env times
    ⟨s.1, s.2⟩

/-- Is a trace entry an `approve` submission? -/
def isApproveAction : TxAction → Bool
  | TxAction.approve _ => true
  | _ => false

/-- Is a trace entry a draw submission (either signature)? -/
def isDrawAction : TxAction → Bool
  | TxAction.approve _ => false
  | _ => true

/-- The draw submissions of a trace, in order. -/
def drawActions (trace : List TxAction) : List TxAction :=
  trace.filter isDrawAction

/-! ## The caller (`startDraw`) -/

/-- Terminal UI states of `startDraw` after the pipeline returns. -/
inductive DrawUiResult
  | showPrize (prizeId : Int)
  | unresolvedNotice
  | failureNotice (e : JsError)
deriving Repr, DecidableEq

/-- Identifiers of the `prizes` array entries. -/
def prizeIds : List Int := [0, 1, 2, 3, 4, 5]

/-- The lookup `prizes.find(p => p.id === prizeId) || prizes.find(p => p.id === 5)`. -/
def lookupPrize (n : Int) : Int :=
  if prizeIds.contains n then n else 5

/-- How `startDraw` dispatches on the pipeline result: a numeric non-`NaN`
`prizeId` shows a prize, `null`/`NaN` surfaces the unresolved notice, and a
thrown error surfaces the failure notice. -/
def startDrawOutcome (run : DrawRun) : DrawUiResult :=
  match run.result with
  | Except.error e => DrawUiResult.failureNotice e
  | Except.ok (some (NumVal.int n), _) => DrawUiResult.showPrize (lookupPrize n)
  | Except.ok (some NumVal.nan, _) => DrawUiResult.unresolvedNotice
  | Except.ok (none, _) => DrawUiResult.unresolvedNotice

/-- Does the receipt carry the primary web3-map `DrawResult` shape? -/
def hasPrimaryShape : EventsVal → Bool
  | EventsVal.eventMap dr _ => (mapEventRV dr).isSome
  | _ => false

/-- Does the receipt carry the alternate web3-map `Draw` shape? -/
def hasAltShape : EventsVal → Bool
  | EventsVal.eventMap _ dw => (mapEventRV dw).isSome
  | _ => false

/-- Does the receipt carry a decodable ethers-style array entry? -/
def hasDecodableLogShape : EventsVal → Bool
  | EventsVal.eventArr es =>
    match findDrawEvent es with
    | some e => (effectiveArgs e).isSome
    | none => false
  | _ => false

/-! ## Chain assurance (`ensureCorrectChain`) -/

/-- The `nativeCurrency` object of an add-network payload. -/
structure NativeCurrency where
  name : String
  symbol : String
  decimals : Nat
deriving Repr, DecidableEq

/-- The fields of `window.ContractConfig` read by `ensureCorrectChain`;
`none` models an absent field. -/
structure ChainConfig where
  chainId : Option Nat
  chainName : Option String
  nativeCurrency : Option NativeCurrency
  rpcUrl : Option String
  blockExplorerUrls : Option (List String)
deriving Repr, DecidableEq

/-- An error thrown by a provider `request` call. -/
structure ProviderError where
  code : Option Int
  message : Option String
deriving Repr, DecidableEq

/-- The payload of a `wallet_addEthereumChain` request. -/
structure AddChainParams where
  chainId : String
  chainName : String
  nativeCurrency : NativeCurrency
  rpcUrls : List String
  blockExplorerUrls : List String
deriving Repr, DecidableEq

/-- A provider request issued by `ensureCorrectChain`. -/
inductive ProviderReq
  | switchChain (chainId : String)
  | addChain (params : AddChainParams)
deriving Repr, DecidableEq

/-- Provider behaviour during one `ensureCorrectChain` run: the results of
the (up to) three `window.ethereum.request` calls, in program order. -/
structure ChainEnv where
  firstSwitch : Except ProviderError Unit
  addChainResult : Except ProviderError Unit
  secondSwitch : Except ProviderError Unit

/-- JavaScript `x || d` for an optional number (`0` is falsy). -/
def jsOrNat : Option Nat → Nat → Nat
  | some n, d => if n = 0 then d else n
  | none, d => d

/-- JavaScript `x || d` for an optional string (`""` is falsy). -/
def jsOrStr : Option String → String → String
  | some s, d => if s = "" then d else s
  | none, d => d

/-- The test
`switchErr.code === 4902 || (switchErr.message && /Unrecognized chain ID|Unknown chain/i.test(switchErr.message))`. -/
def isUnrecognizedChainErr (e : ProviderError) : Bool :=
  (e.code == some 4902) ||
  (match e.message with
   | some m =>
     m ≠ "" &&
       (strContainsCI m "Unrecognized chain ID" || strContainsCI m "Unknown chain")
   | none => false)

/-- The add-network payload built from static configuration:
`{chainId, chainName, nativeCurrency, rpcUrls: [rpcUrl || ''].filter(Boolean), blockExplorerUrls}`. -/
def mkAddChainParams (cfg : ChainConfig) (hexId : String) (targetId : Nat) : AddChainParams :=
  ⟨hexId,
   jsOrStr cfg.chainName ("Chain " ++ toString targetId),
   cfg.nativeCurrency.getD ⟨"ETH", "ETH", 18⟩,
   (if jsOrStr cfg.rpcUrl "" = "" then [] else [jsOrStr cfg.rpcUrl ""]),
   cfg.blockExplorerUrls.getD []⟩

/-- The `ensureCorrectChain` flow: read the active chain id, switch if it
differs from the configured target (default `1952`), and on an
unrecognized-chain rejection add the network then re-attempt the switch.
Returns the provider-request trace and the returned (or thrown) value. -/
def ensureCorrectChain (hasProvider : Bool) (currentId : Nat) (cfg : ChainConfig)
    (env : ChainEnv) : List ProviderReq × Except ProviderError Unit :=
  if hasProvider = false then ([], Except.ok ())
  else
    let targetId := jsOrNat cfg.chainId 1952
    if currentId = targetId then ([], Except.ok ())
    else
      let hexId := "0x" ++ natToHex targetId
      match env.firstSwitch with
      | Except.ok _ => ([ProviderReq.switchChain hexId], Except.ok ())
      | Except.error switchErr =>
        if isUnrecognizedChainErr switchErr = false then
          ([ProviderReq.switchChain hexId], Except.error switchErr)
        else
          let params := mkAddChainParams cfg hexId targetId
          match env.addChainResult with
          | Except.error e =>
            ([ProviderReq.switchChain hexId, ProviderReq.addChain params], Except.error e)
          | Except.ok _ =>
            match env.secondSwitch with
            | Except.ok _ =>
              ([ProviderReq.switchChain hexId, ProviderReq.addChain params,
                ProviderReq.switchChain hexId], Except.ok ())
            | Except.error e =>
              ([ProviderReq.switchChain hexId, ProviderReq.addChain params,
                ProviderReq.switchChain hexId], Except.error e)

/-! ## Backend query retry (`executeWithRetry` in `server/index.js`) -/

/-- A database error; `code` is the driver error code string. -/
structure DbError where
  code : String
  message : String
deriving Repr, DecidableEq

/-- The transient (connection) error class:
`err.code === 'ECONNRESET' || err.code === 'PROTOCOL_CONNECTION_LOST'`. -/
def isTransientDbError (e : DbError) : Bool :=
  e.code == "ECONNRESET" || e.code == "PROTOCOL_CONNECTION_LOST"

/-- Observable behaviour of one `executeWithRetry` run: how many attempts
were made, the `setTimeout` delays (ms) taken between attempts, and the
returned rows / thrown error (`none` models the implicit `undefined`
return when the loop is given zero attempts). -/
structure RetryRun (α : Type) where
  attemptsMade : Nat
  delays : List Nat
  result : Option (Except DbError α)

/-- The `for (attempt = 1; attempt <= maxRetries; attempt++)` body, driven
by the list of remaining attempt numbers. An empty `rest` means
`attempt === maxRetries`, which re-throws; otherwise a transient error
sleeps `1000 * attempt` ms and retries, and any other error is re-thrown
immediately. -/
def retryLoop {α : Type} (tryFn : Nat → Except DbError α) : List Nat → RetryRun α
  | [] => ⟨0, [], none⟩
  | attempt :: rest =>
    match tryFn attempt with
    | Except.ok rows => ⟨1, [], some (Except.ok rows)⟩
    | Except.error err =>
      if rest.isEmpty then ⟨1, [], some (Except.error err)⟩
      else if isTransientDbError err then
        let r := retryLoop tryFn rest
        ⟨r.attemptsMade + 1, 1000 * attempt :: r.delays, r.result⟩
      else ⟨1, [], some (Except.error err)⟩

/-- `executeWithRetry(pool, sql, params, maxRetries)`; the query attempt is
abstracted as `tryFn`, indexed by the attempt number. -/
def executeWithRetry {α : Type} (tryFn : Nat → Except DbError α) (maxRetries : Nat) :
    RetryRun α :=
  retryLoop tryFn (List.range' 1 maxRetries)

/-! ## Settlement monitor (`startPaymentMonitor` in `contract-config.js`) -/

/-- State of one payment watch: the baseline balance snapshot (in wei,
`none` while the initial read has not resolved), whether the poll interval
is still scheduled, whether settlement has fired, and how many times the
settlement notification callback ran. -/
structure PaymentWatch where
  baseline : Option Nat
  active : Bool
  fired : Bool
  callbackCount : Nat
deriving Repr, DecidableEq

/-- Watch state right after `startPaymentMonitor` schedules the interval. -/
def startPaymentMonitor (baseline : Option Nat) : PaymentWatch :=
  ⟨baseline, true, false, 0⟩

/-- One interval tick: if the interval is still scheduled, the baseline is
set, and the observed balance strictly exceeds it, clear the interval and
invoke the settlement notification. -/
def monitorTick (bal : Nat) (w : PaymentWatch) : PaymentWatch :=
  if w.active then
    match w.baseline with
    | some b => if b < bal then ⟨w.baseline, false, true, w.callbackCount + 1⟩ else w
    | none => w
  else w

/-- Run a sequence of tick observations. -/
def runTicks (w : PaymentWatch) : List Nat → PaymentWatch
  | [] => w
  | b :: bs => runTicks (monitorTick b w) bs

/-- `clearInterval` on the watch handle. -/
def stopMonitor (w : PaymentWatch) : PaymentWatch :=
  ⟨w.baseline, false, w.fired, w.callbackCount⟩

/-! ## Draw-times input handling (`updateDrawTimes` / `validateDrawTimes`) -/

/-- `updateDrawTimes(change)`: `parseInt` the input (`NumVal.nan` when the
text does not parse), add the delta, and clamp with two sequential range
checks. `NaN` fails both comparisons and is stored unchanged. -/
def updateDrawTimes (inputVal : NumVal) (change : Int) : NumVal :=
  match inputVal with
  | NumVal.nan => NumVal.nan
  | NumVal.int v =>
    let nv := v + change
    let nv := if nv < 1 then 1 else nv
    let nv := if nv > 100 then 100 else nv
    NumVal.int nv

/-- `validateDrawTimes()`: `parseInt` the input and clamp, mapping `NaN`
and values below `1` to `1` and values above `100` to `100`. -/
def validateDrawTimes (inputVal : NumVal) : NumVal :=
  match inputVal with
  | NumVal.nan => NumVal.int 1
  | NumVal.int v =>
    if v < 1 then NumVal.int 1
    else if v > 100 then NumVal.int 100
    else NumVal.int v

/-- Is a stored `drawTimes` value an integer in the closed range 1..100? -/
def isValidStoredDrawTimes : NumVal → Bool
  | NumVal.int n => decide (1 ≤ n ∧ n ≤ 100)
  | NumVal.nan => false

/-! ## Token balance read (`getUserTokenBalance`) -/

/-- `getUserTokenBalance()`: call `balanceOf`, convert the wei string to a
token amount (`parseFloat(fromWei(...))`, modelled exactly as a rational),
and on any thrown error log it and return `0`. -/
def getUserTokenBalance (callResult : Except JsError (List Char)) : Except JsError Rat :=
  match callResult with
  | Except.ok bal => Except.ok ((decToNat bal : Rat) / (10 : Rat) ^ 18)
  | Except.error _ => Except.ok 0

/-- Proof-infrastructure invariant of reachable watch states: the callback
ran at most once, a fired watch has a cancelled poll, and an unfired watch
has never run the callback. -/
def WatchInv (w : PaymentWatch) : Prop :=
  w.callbackCount ≤ 1 ∧ (w.fired = true → w.active = false) ∧
    (w.fired = false → w.callbackCount = 0)

/-! ## Helper lemmas -/

theorem submitDraw_filter_approve (env : DrawEnv) (times : Nat) :
    (submitDraw env times).1.filter isApproveAction = [] := by
  unfold submitDraw
  cases env.drawTimesResult with
  | ok evts => simp [isApproveAction]
  | error e =>
    by_cases h : strIncludes e.message "invalid number of parameters"
    · cases env.drawNoArgResult <;> simp [h, isApproveAction]
    · simp [h, isApproveAction]

theorem submitDraw_drawActions_len (env : DrawEnv) (times : Nat) :
    ((submitDraw env times).1.filter isDrawAction).length ≤ 2 := by
  unfold submitDraw
  cases env.drawTimesResult with
  | ok evts => simp [isDrawAction]
  | error e =>
    by_cases h : strIncludes e.message "invalid number of parameters"
    · cases env.drawNoArgResult <;> simp [h, isDrawAction]
    · simp [h, isDrawAction]

theorem monitorTick_inactive {w : PaymentWatch} (h : w.active = false) (bal : Nat) :
    monitorTick bal w = w := by
  simp [monitorTick, h]

theorem runTicks_inactive {w : PaymentWatch} (h : w.active = false) (bals : List Nat) :
    runTicks w bals = w := by
  induction bals with
  | nil => rfl
  | cons b bs ih => rw [runTicks, monitorTick_inactive h]; exact ih

theorem watchInv_tick {w : PaymentWatch} (h : WatchInv w) (bal : Nat) :
    WatchInv (monitorTick bal w) := by
  obtain ⟨h1, h2, h3⟩ := h
  by_cases ha : w.active = true
  · cases hb : w.baseline with
    | none => simpa [monitorTick, ha, hb] using ⟨h1, h2, h3⟩
    | some b =>
      by_cases hlt : b < bal
      · have hf : w.fired = false := by
          by_contra hf
          have := h2 (by revert hf; cases w.fired <;> simp)
          rw [this] at ha; cases ha
        simp [monitorTick, ha, hb, hlt, WatchInv, h3 hf]
      · simpa [monitorTick, ha, hb, hlt] using ⟨h1, h2, h3⟩
  · have ha' : w.active = false := by revert ha; cases w.active <;> simp
    simpa [monitorTick_inactive ha'] using ⟨h1, h2, h3⟩

theorem watchInv_runTicks {w : PaymentWatch} (h : WatchInv w) (bals : List Nat) :
    WatchInv (runTicks w bals) := by
  induction bals generalizing w with
  | nil => exact h
  | cons b bs ih => exact ih (watchInv_tick h b)

theorem stopMonitor_inactive {w : PaymentWatch} (h : w.active = false) :
    stopMonitor w = w := by
  obtain ⟨bl, a, f, c⟩ := w
  simp only at h
  subst h
  rfl

/-! ## Claim theorems -/

/-- C7: for every `times ≥ 1`, the total required token amount computed by
the draw pipeline equals `costPerDraw * times` under exact big-number
integer arithmetic — both the value used for the allowance comparison and
the decimal string submitted with the approval decode to exactly the
product, with no rounding. -/
theorem drawRequest_totalRequired_exact (cost times : Nat) (env : DrawEnv)
    (h : 1 ≤ times) (hc : env.drawCostRaw = natToDec cost) :
    pipelineTotalCost env times = cost * times ∧
      decToNat (natToDec (pipelineTotalCost env times)) = cost * times := by
  have h1 : pipelineTotalCost env times = cost * times := by
    simp [pipelineTotalCost, toBN, hc, decToNat_natToDec]
  exact ⟨h1, by rw [h1, decToNat_natToDec]⟩

/-- Witness for C7 at `costPerDraw = 7`, `times = 3`. -/
theorem drawRequest_totalRequired_exact_witness :
    pipelineTotalCost
        ⟨natToDec 7, natToDec 0, Except.ok (),
         Except.ok EventsVal.nullEvents, Except.ok EventsVal.nullEvents⟩ 3 = 7 * 3 ∧
      decToNat (natToDec (pipelineTotalCost
        ⟨natToDec 7, natToDec 0, Except.ok (),
         Except.ok EventsVal.nullEvents, Except.ok EventsVal.nullEvents⟩ 3)) = 7 * 3 :=
  drawRequest_totalRequired_exact 7 3 _ (by decide) rfl

/-- C9 counterexample: a token-balance read whose underlying contract call
throws does not propagate the failure — it returns a fabricated success
value of `0`. -/
theorem getUserTokenBalance_fabricates_zero :
    getUserTokenBalance (Except.error ⟨"network error"⟩) = Except.ok 0 := rfl

/-- C9 (amended): when the underlying `balanceOf` call throws, the
token-balance read catches the error and returns a success value of `0`
instead of propagating the failure; the error is converted into a default
balance. -/
theorem getUserTokenBalance_swallows_errors (e : JsError) :
    getUserTokenBalance (Except.error e) = Except.ok 0 := rfl

/-- C10 counterexample: `updateDrawTimes` on a non-numeric input box value
(`parseInt` gives `NaN`) stores `NaN`, which is not an integer in the
range 1..100 — the claimed clamping to `1` does not happen. -/
theorem updateDrawTimes_nan_escapes_range :
    isValidStoredDrawTimes (updateDrawTimes NumVal.nan 1) = false := rfl

/-- C10 (amended): after every `validateDrawTimes` call the stored
`drawTimes` is an integer in the closed range 1..100 (non-numeric and
sub-1 input clamped to 1, input above 100 clamped to 100), and after
`updateDrawTimes` the same holds provided the current input parses to an
integer; on non-numeric input `updateDrawTimes` stores `NaN` instead of
clamping. -/
theorem drawTimes_clamping (v : NumVal) (n c : Int) :
    isValidStoredDrawTimes (validateDrawTimes v) = true ∧
      isValidStoredDrawTimes (updateDrawTimes (NumVal.int n) c) = true ∧
      updateDrawTimes NumVal.nan c = NumVal.nan := by
  refine ⟨?_, ?_, rfl⟩
  · cases v with
    | nan => rfl
    | int m =>
      simp only [validateDrawTimes]
      split_ifs with hlt hgt <;> simp [isValidStoredDrawTimes] <;> omega
  · simp only [updateDrawTimes]
    split_ifs with hlt hgt <;> simp [isValidStoredDrawTimes] <;> omega

/-- C5: a backend query that throws the same transient (connection-reset /
protocol-lost) error on every attempt is attempted exactly 3 times, with a
1000 ms delay before the 2nd attempt and a 2000 ms delay between the 2nd
and 3rd, after which the original error is re-thrown; an error outside the
transient class is re-thrown immediately after a single attempt, with no
delay. -/
theorem executeWithRetry_policy {α : Type} (e1 e2 : DbError)
    (f g : Nat → Except DbError α)
    (h1 : isTransientDbError e1 = true) (h2 : ∀ i, f i = Except.error e1)
    (h3 : isTransientDbError e2 = false) (h4 : g 1 = Except.error e2) :
    executeWithRetry f 3 = ⟨3, [1000, 2000], some (Except.error e1)⟩ ∧
      executeWithRetry g 3 = ⟨1, [], some (Except.error e2)⟩ := by
  constructor
  · show retryLoop f (List.range' 1 3) = _
    have hr : List.range' 1 3 = [1, 2, 3] := rfl
    rw [hr]
    simp [retryLoop, h2 1, h2 2, h2 3, h1]
  · show retryLoop g (List.range' 1 3) = _
    have hr : List.range' 1 3 = [1, 2, 3] := rfl
    rw [hr]
    simp [retryLoop, h4, h3]

/-- Witness for C5: a query always throwing `ECONNRESET` is retried to 3
attempts with delays 1000 and 2000 then re-thrown; a syntax error is
thrown after one attempt. -/
theorem executeWithRetry_policy_witness :
    executeWithRetry (fun _ => (Except.error ⟨"ECONNRESET", "reset"⟩ : Except DbError Nat)) 3
        = ⟨3, [1000, 2000], some (Except.error ⟨"ECONNRESET", "reset"⟩)⟩ ∧
      executeWithRetry (fun _ => (Except.error ⟨"ER_PARSE", "syntax"⟩ : Except DbError Nat)) 3
        = ⟨1, [], some (Except.error ⟨"ER_PARSE", "syntax"⟩)⟩ :=
  executeWithRetry_policy ⟨"ECONNRESET", "reset"⟩ ⟨"ER_PARSE", "syntax"⟩ _ _
    (by decide) (fun _ => rfl) (by decide) rfl

/-- C6: for every payment watch the settlement callback fires at most
once; once fired, any further sequence of observed balances (including
arbitrarily many increases) produces no further callback invocations and
`stop` is a no-op; and a tick invokes the callback only when the observed
balance strictly exceeds the snapshotted baseline, cancelling the poll in
the same step it fires. -/
theorem paymentMonitor_at_most_once (b0 : Nat) (bals more : List Nat) :
    (runTicks (startPaymentMonitor (some b0)) bals).callbackCount ≤ 1 ∧
    ((runTicks (startPaymentMonitor (some b0)) bals).fired = true →
      runTicks (runTicks (startPaymentMonitor (some b0)) bals) more
          = runTicks (startPaymentMonitor (some b0)) bals ∧
        stopMonitor (runTicks (startPaymentMonitor (some b0)) bals)
          = runTicks (startPaymentMonitor (some b0)) bals) ∧
    (∀ (w : PaymentWatch) (bal : Nat),
      (monitorTick bal w).callbackCount ≠ w.callbackCount →
      (∃ b, w.baseline = some b ∧ b < bal) ∧
        (monitorTick bal w).active = false ∧ (monitorTick bal w).fired = true) := by
  have hinv : WatchInv (runTicks (startPaymentMonitor (some b0)) bals) :=
    watchInv_runTicks (by exact ⟨by simp [startPaymentMonitor], by simp [startPaymentMonitor],
      fun _ => by simp [startPaymentMonitor]⟩) bals
  refine ⟨hinv.1, ?_, ?_⟩
  · intro hfired
    have hact : (runTicks (startPaymentMonitor (some b0)) bals).active = false :=
      hinv.2.1 hfired
    exact ⟨runTicks_inactive hact more, stopMonitor_inactive hact⟩
  · intro w bal hne
    by_cases ha : w.active = true
    · cases hb : w.baseline with
      | none => simp [monitorTick, ha, hb] at hne
      | some b =>
        by_cases hlt : b < bal
        · exact ⟨⟨b, rfl, hlt⟩, by simp [monitorTick, ha, hb, hlt],
            by simp [monitorTick, ha, hb, hlt]⟩
        · simp [monitorTick, ha, hb, hlt] at hne
    · have ha' : w.active = false := by revert ha; cases w.active <;> simp
      rw [monitorTick_inactive ha'] at hne
      exact absurd rfl hne

/-- Witness for C6: baseline 5, ticks 3 (no fire), 10 (fires), 20
(ignored); further increases change nothing. -/
theorem paymentMonitor_at_most_once_witness :
    (runTicks (startPaymentMonitor (some 5)) [3, 10, 20]).callbackCount ≤ 1 ∧
      runTicks (runTicks (startPaymentMonitor (some 5)) [3, 10, 20]) [30, 40]
        = runTicks (startPaymentMonitor (some 5)) [3, 10, 20] ∧
      stopMonitor (runTicks (startPaymentMonitor (some 5)) [3, 10, 20])
        = runTicks (startPaymentMonitor (some 5)) [3, 10, 20] :=
  ⟨(paymentMonitor_at_most_once 5 [3, 10, 20] [30, 40]).1,
   (paymentMonitor_at_most_once 5 [3, 10, 20] [30, 40]).2.1 (by decide)⟩

/-- C2: a chain-assurance run with required chain id 1952, active chain 1,
and a provider that rejects the switch with an unrecognized-chain error
(code 4902 or a matching message) issues exactly the trace: one switch
request, then exactly one `wallet_addEthereumChain` request whose
`chainId` parameter is the hex string `"0x7a0"`, then exactly one further
`wallet_switchEthereumChain` request. -/
theorem ensureCorrectChain_addChain (cfg : ChainConfig) (env : ChainEnv) (e : ProviderError)
    (hcfg : cfg.chainId = some 1952)
    (hfirst : env.firstSwitch = Except.error e)
    (herr : isUnrecognizedChainErr e = true)
    (hadd : env.addChainResult = Except.ok ()) :
    (ensureCorrectChain true 1 cfg env).1 =
      [ProviderReq.switchChain "0x7a0",
       ProviderReq.addChain (mkAddChainParams cfg "0x7a0" 1952),
       ProviderReq.switchChain "0x7a0"] ∧
      (mkAddChainParams cfg "0x7a0" 1952).chainId = "0x7a0" := by
  have hhex : "0x" ++ natToHex 1952 = "0x7a0" := by decide
  refine ⟨?_, rfl⟩
  cases hsec : env.secondSwitch with
  | ok u =>
    simp [ensureCorrectChain, hcfg, hfirst, herr, hadd, hsec, jsOrNat, hhex]
  | error e2 =>
    simp [ensureCorrectChain, hcfg, hfirst, herr, hadd, hsec, jsOrNat, hhex]

/-- Witness for C2 with a code-4902 rejection and minimal configuration. -/
theorem ensureCorrectChain_addChain_witness :
    (ensureCorrectChain true 1 ⟨some 1952, none, none, none, none⟩
        ⟨Except.error ⟨some 4902, none⟩, Except.ok (), Except.ok ()⟩).1 =
      [ProviderReq.switchChain "0x7a0",
       ProviderReq.addChain
         (mkAddChainParams ⟨some 1952, none, none, none, none⟩ "0x7a0" 1952),
       ProviderReq.switchChain "0x7a0"] :=
  (ensureCorrectChain_addChain ⟨some 1952, none, none, none, none⟩
    ⟨Except.error ⟨some 4902, none⟩, Except.ok (), Except.ok ()⟩
    ⟨some 4902, none⟩ rfl rfl (by decide) rfl).1

/-- C1: whenever the allowance read from the token contract is strictly
below `totalRequired = costPerDraw * times`, the pipeline submits exactly
one approve whose amount is exactly `totalRequired` (the submitted decimal
string decodes to the product — not the shortfall, not unlimited), ahead
of every other submission; if the approve throws, no draw is submitted,
and once it is awaited successfully the draw submission follows. When the
allowance covers `totalRequired`, no approve is submitted. -/
theorem drawFromContract_approval (env : DrawEnv) (times : Nat) :
    (toBN env.allowance < pipelineTotalCost env times →
      ∃ rest,
        (drawFromContract env times).trace
            = TxAction.approve (natToDec (pipelineTotalCost env times)) :: rest ∧
          rest.filter isApproveAction = [] ∧
          decToNat (natToDec (pipelineTotalCost env times)) = pipelineTotalCost env times ∧
          (∀ e, env.approveResult = Except.error e → rest = []) ∧
          (env.approveResult = Except.ok () → rest = (submitDraw env times).1)) ∧
    (pipelineTotalCost env times ≤ toBN env.allowance →
      (drawFromContract env times).trace.filter isApproveAction = []) := by
  obtain ⟨cost, alw, ar, dtr, dnr⟩ := env
  constructor
  · intro h
    cases ar with
    | error e =>
      refine ⟨[], ?_, rfl, decToNat_natToDec _, fun _ _ => rfl, fun hok => nomatch hok⟩
      simp only [drawFromContract]
      rw [if_pos h]
    | ok u =>
      cases u
      refine ⟨(submitDraw ⟨cost, alw, Except.ok (), dtr, dnr⟩ times).1, ?_, ?_, ?_, ?_, ?_⟩
      · simp only [drawFromContract]
        rw [if_pos h]
      · exact submitDraw_filter_approve _ times
      · exact decToNat_natToDec _
      · intro e he
        simp at he
      · intro _
        rfl
  · intro h
    simp only [drawFromContract]
    rw [if_neg (Nat.not_lt.mpr h)]
    exact submitDraw_filter_approve _ times

/-- Witness for C1: allowance 5, cost 10, one draw — one approve for 10. -/
theorem drawFromContract_approval_witness :
    toBN (natToDec 5) <
        pipelineTotalCost
          ⟨natToDec 10, natToDec 5, Except.ok (),
           Except.ok EventsVal.nullEvents, Except.ok EventsVal.nullEvents⟩ 1 ∧
      ∃ rest,
        (drawFromContract
            ⟨natToDec 10, natToDec 5, Except.ok (),
             Except.ok EventsVal.nullEvents, Except.ok EventsVal.nullEvents⟩ 1).trace
            = TxAction.approve (natToDec (pipelineTotalCost
                ⟨natToDec 10, natToDec 5, Except.ok (),
                 Except.ok EventsVal.nullEvents, Except.ok EventsVal.nullEvents⟩ 1)) :: rest ∧
          rest.filter isApproveAction = [] ∧
          decToNat (natToDec (pipelineTotalCost
              ⟨natToDec 10, natToDec 5, Except.ok (),
               Except.ok EventsVal.nullEvents, Except.ok EventsVal.nullEvents⟩ 1))
            = pipelineTotalCost
                ⟨natToDec 10, natToDec 5, Except.ok (),
                 Except.ok EventsVal.nullEvents, Except.ok EventsVal.nullEvents⟩ 1 ∧
          (∀ e, (Except.ok () : Except JsError Unit) = Except.error e → rest = []) ∧
          ((Except.ok () : Except JsError Unit) = Except.ok () →
            rest = (submitDraw
              ⟨natToDec 10, natToDec 5, Except.ok (),
               Except.ok EventsVal.nullEvents, Except.ok EventsVal.nullEvents⟩ 1).1) :=
  ⟨by decide,
   (drawFromContract_approval
     ⟨natToDec 10, natToDec 5, Except.ok (),
      Except.ok EventsVal.nullEvents, Except.ok EventsVal.nullEvents⟩ 1).1 (by decide)⟩

/-- C4: the draw submission retries with the no-argument `draw()` form
exactly when the first submission fails with a parameter-count error
(`invalid number of parameters`); any other submission error propagates to
the caller unchanged with no retry, a successful first submission is never
followed by a second, and every invocation submits at most two draw
transactions (at most one automatic retry). -/
theorem drawFromContract_signature_retry (env : DrawEnv) (times : Nat) (e : JsError)
    (ha : env.approveResult = Except.ok ()) :
    (∀ evts, env.drawTimesResult = Except.ok evts →
      drawActions (drawFromContract env times).trace = [TxAction.drawWithTimes times]) ∧
    (env.drawTimesResult = Except.error e →
      (strIncludes e.message "invalid number of parameters" = true →
        drawActions (drawFromContract env times).trace
            = [TxAction.drawWithTimes times, TxAction.drawNoArgs] ∧
          (drawFromContract env times).result
            = (match env.drawNoArgResult with
               | Except.ok evts => Except.ok (parseDrawEvents evts)
               | Except.error e2 => Except.error e2)) ∧
      (strIncludes e.message "invalid number of parameters" = false →
        drawActions (drawFromContract env times).trace = [TxAction.drawWithTimes times] ∧
          (drawFromContract env times).result = Except.error e)) ∧
    (∀ env2 : DrawEnv, (drawActions (drawFromContract env2 times).trace).length ≤ 2) := by
  have hkey : ∀ env2 : DrawEnv, env2.approveResult = Except.ok () →
      drawActions (drawFromContract env2 times).trace = drawActions (submitDraw env2 times).1 ∧
        (drawFromContract env2 times).result = (submitDraw env2 times).2 := by
    intro env2 ha2
    simp only [drawFromContract]
    by_cases h : toBN env2.allowance < pipelineTotalCost env2 times
    · rw [if_pos h, ha2]
      exact ⟨by simp [drawActions, isDrawAction], rfl⟩
    · rw [if_neg h]
      exact ⟨rfl, rfl⟩
  refine ⟨?_, ?_, ?_⟩
  · intro evts hr
    rw [(hkey env ha).1]
    simp [submitDraw, hr, drawActions, isDrawAction]
  · intro hr
    constructor
    · intro hincl
      rw [(hkey env ha).1, (hkey env ha).2]
      cases hd : env.drawNoArgResult <;>
        simp [submitDraw, hr, hincl, hd, drawActions, isDrawAction]
    · intro hincl
      rw [(hkey env ha).1, (hkey env ha).2]
      simp [submitDraw, hr, hincl, drawActions, isDrawAction]
  · intro env2
    obtain ⟨c2, a2, ar2, dtr2, dnr2⟩ := env2
    simp only [drawFromContract]
    by_cases h : toBN a2 < pipelineTotalCost ⟨c2, a2, ar2, dtr2, dnr2⟩ times
    · rw [if_pos h]
      cases ar2 with
      | error e2 => simp [drawActions, isDrawAction]
      | ok u =>
        simpa [drawActions, isDrawAction] using
          submitDraw_drawActions_len ⟨c2, a2, Except.ok u, dtr2, dnr2⟩ times
    · rw [if_neg h]
      exact submitDraw_drawActions_len ⟨c2, a2, ar2, dtr2, dnr2⟩ times

/-- Witness for C4: a parameter-count rejection of `draw(2)` is retried
once with `draw()`. -/
theorem drawFromContract_signature_retry_witness :
    drawActions (drawFromContract
        ⟨natToDec 1, natToDec 100, Except.ok (),
         Except.error ⟨"invalid number of parameters"⟩,
         Except.ok EventsVal.nullEvents⟩ 2).trace
      = [TxAction.drawWithTimes 2, TxAction.drawNoArgs] :=
  (((drawFromContract_signature_retry
      ⟨natToDec 1, natToDec 100, Except.ok (),
       Except.error ⟨"invalid number of parameters"⟩,
       Except.ok EventsVal.nullEvents⟩ 2
      ⟨"invalid number of parameters"⟩ rfl).2.1 rfl).1 (by decide)).1

/-- C3: when a successful draw receipt exposes none of the three
outcome-decoding shapes (no primary `DrawResult` map entry, no alternate
`Draw` map entry, no decodable array entry), the pipeline returns a null
`prizeId` with the outcome unresolved, and the caller surfaces the
dedicated unresolved notice — distinct from every success-with-result
state and every failure state; no random or default prize is substituted. -/
theorem drawOutcome_unresolved (env : DrawEnv) (times : Nat) (evts : EventsVal)
    (h1 : hasPrimaryShape evts = false) (h2 : hasAltShape evts = false)
    (h3 : hasDecodableLogShape evts = false)
    (ha : env.approveResult = Except.ok ())
    (hr : env.drawTimesResult = Except.ok evts) :
    parseDrawEvents evts = (none, ParsedFrom.unresolved) ∧
      (drawFromContract env times).result = Except.ok (none, ParsedFrom.unresolved) ∧
      startDrawOutcome (drawFromContract env times) = DrawUiResult.unresolvedNotice ∧
      (∀ n, startDrawOutcome (drawFromContract env times) ≠ DrawUiResult.showPrize n) ∧
      (∀ e, startDrawOutcome (drawFromContract env times) ≠ DrawUiResult.failureNotice e) := by
  have hparse : parseDrawEvents evts = (none, ParsedFrom.unresolved) := by
    cases evts with
    | nullEvents => rfl
    | eventMap dr dw =>
      cases hdr : mapEventRV dr with
      | some rv => rw [hasPrimaryShape, hdr] at h1; cases h1
      | none =>
        cases hdw : mapEventRV dw with
        | some rv => rw [hasAltShape, hdw] at h2; cases h2
        | none => simp [parseDrawEvents, parseStage1, hdr, hdw]
    | eventArr es =>
      cases hf : findDrawEvent es with
      | none => simp [parseDrawEvents, parseStage1, needsArrFallback, hf]
      | some e =>
        cases hea : effectiveArgs e with
        | some args => simp [hasDecodableLogShape, hf, hea] at h3
        | none => simp [parseDrawEvents, parseStage1, needsArrFallback, hf, hea]
  have hres : (drawFromContract env times).result = Except.ok (none, ParsedFrom.unresolved) := by
    obtain ⟨cost, alw, ar, dtr, dnr⟩ := env
    simp only at ha hr
    subst ha
    subst hr
    simp only [drawFromContract]
    by_cases h : toBN alw < pipelineTotalCost ⟨cost, alw, Except.ok (), Except.ok evts, dnr⟩ times
    · rw [if_pos h]
      simp [submitDraw, hparse]
    · rw [if_neg h]
      simp [submitDraw, hparse]
  refine ⟨hparse, hres, ?_, ?_, ?_⟩
  · simp [startDrawOutcome, hres]
  · intro n
    simp [startDrawOutcome, hres]
  · intro e
    simp [startDrawOutcome, hres]

/-- Witness for C3 on a receipt with no events at all. -/
theorem drawOutcome_unresolved_witness :
    startDrawOutcome (drawFromContract
        ⟨natToDec 2, natToDec 0, Except.ok (),
         Except.ok EventsVal.nullEvents, Except.ok EventsVal.nullEvents⟩ 1)
      = DrawUiResult.unresolvedNotice :=
  (drawOutcome_unresolved
    ⟨natToDec 2, natToDec 0, Except.ok (),
     Except.ok EventsVal.nullEvents, Except.ok EventsVal.nullEvents⟩ 1
    EventsVal.nullEvents rfl rfl rfl rfl rfl).2.2.1

/-- C8: outcome parsing tries the primary `DrawResult` shape first and the
alternate `Draw` shape second, stopping at the first success: a receipt
whose map carries only the alternate event (with a `prizeId` field, a
scalar `winningType`, or a single-element-array `winningType`) resolves to
exactly that event's outcome value, tagged as coming from the alternate
event; and whenever the primary shape is present it wins instead. -/
theorem parseDrawEvents_altEvent (dr dw : Option EventObj) (rv : ReturnValues) (v : NumVal)
    (hdr : mapEventRV dr = none) (hdw : mapEventRV dw = some rv)
    (hval : rv.prizeId = some v ∨
      (rv.prizeId = none ∧ ∃ wt, rv.winningType = some wt ∧
        (wt = WtVal.scalar v ∨ wt = WtVal.arrayOf [v]))) :
    parseDrawEvents (EventsVal.eventMap dr dw) = (some v, ParsedFrom.altEvent) ∧
      (∀ dr2 rv2, mapEventRV dr2 = some rv2 →
        parseDrawEvents (EventsVal.eventMap dr2 dw)
          = (some (primaryValue rv2), ParsedFrom.primaryEvent)) := by
  constructor
  · rcases hval with hp | ⟨hp, wt, hwt, hshape⟩
    · simp [parseDrawEvents, parseStage1, hdr, hdw, hp]
    · rcases hshape with h | h <;>
        simp [parseDrawEvents, parseStage1, hdr, hdw, hp, hwt, h, wtFirst]
  · intro dr2 rv2 h
    simp [parseDrawEvents, parseStage1, h]

/-- Witness for C8: only a `Draw` event with `winningType = [3]`. -/
theorem parseDrawEvents_altEvent_witness :
    parseDrawEvents
        (EventsVal.eventMap none
          (some ⟨some ⟨none, some (WtVal.arrayOf [NumVal.int 3]), none⟩⟩))
      = (some (NumVal.int 3), ParsedFrom.altEvent) :=
  (parseDrawEvents_altEvent none
    (some ⟨some ⟨none, some (WtVal.arrayOf [NumVal.int 3]), none⟩⟩)
    ⟨none, some (WtVal.arrayOf [NumVal.int 3]), none⟩ (NumVal.int 3) rfl rfl
    (Or.inr ⟨rfl, WtVal.arrayOf [NumVal.int 3], rfl, Or.inr rfl⟩)).1
